import Mathlib

/-!
Verification development for the parts-inventory-scanner repository.

The embedding models Python strings as `List Char`, Python dicts as
insertion-ordered association lists, and Python exceptions as an explicit
error channel (`PyErr`): a function that can raise returns its partially
performed mutations together with `Option PyErr`, since Python exceptions
leave already-performed dict/file mutations in place.

Sources embedded:
* `iso15434.py` — the `Iso15434` decoder (`from_data`) and field registry;
* `scanner.py` — the dedup logic of `scan_fn` and the event-handling state
  machine of `csv_fn` (`write_line`, `process_iso15434`, the command and
  scan branches).  The serial-bytes branch of `csv_fn` (lines 220-237),
  which mirrors the camera-scan branch, is not needed by any property
  proved here and is omitted.

External collaborators (the DigiKey API client) are modelled as an opaque
record of calls returning either a response or an error, exactly the
success/AssertionError outcome observable at the call sites in
`scanner.py`; other kinds of values never influence control flow there.
-/

/-- Python exception kinds that the embedded code can raise or catch.
Messages carried by the exceptions do not influence control flow and are
not modelled. -/
inductive PyErr : Type
  | indexError
  | assertError
  | keyError
  | attributeError
  | valueError
  deriving DecidableEq, Repr

/-! ## Python primitives: dicts and string helpers -/

/-- Python dict lookup `d.get(k)` / `k in d` over an insertion-ordered
association list (keys are unique by construction of `ainsert`). -/
def aget {κ α : Type} [DecidableEq κ] : List (κ × α) → κ → Option α
  | [], _ => none
  | (k₀, v₀) :: rest, k => if k₀ = k then some v₀ else aget rest k

/-- Python dict assignment `d[k] = v`: update in place when the key exists,
append otherwise (CPython preserves insertion order). -/
def ainsert {κ α : Type} [DecidableEq κ] : List (κ × α) → κ → α → List (κ × α)
  | [], k, v => [(k, v)]
  | (k₀, v₀) :: rest, k, v =>
    if k₀ = k then (k₀, v) :: rest else (k₀, v₀) :: ainsert rest k v

/-- Python `d[k]` (raises `KeyError` when absent). -/
def pyGetItem {α : Type} (d : List (List Char × α)) (k : List Char) : Except PyErr α :=
  match aget d k with
  | some v => Except.ok v
  | none => Except.error PyErr.keyError

/-- Python `str.isnumeric()` on one character, modelled exactly on the
ASCII range: for codepoints below 128 CPython's `isnumeric` is true
precisely of the decimal digits `0`-`9`.  CPython additionally accepts
non-ASCII numeric codepoints (`½`, `²`, …), which this model does not
reproduce: on a segment whose type character is such a codepoint the real
decoder consumes it as part of the identifier (and can then raise
`IndexError` where this model finds a type character).  Every theorem here
whose truth depends on the `isnumeric` test therefore either works on
concrete ASCII payloads or restricts segment characters to ASCII. -/
def pyIsNumeric (c : Char) : Bool := c.isDigit

/-- Python `int(s)` restricted to its sign-and-decimal-digits core
(`int` also tolerates surrounding whitespace and inner underscores, which
never occur in this program's tokens).  `none` models `ValueError`. -/
def pyInt (s : List Char) : Option Int :=
  let digitsToNat : List Char → Option Nat := fun l =>
    if l = [] ∨ l.any (fun c => !c.isDigit) then none
    else some (l.foldl (fun n c => n * 10 + (c.toNat - '0'.toNat)) 0)
  match s with
  | '-' :: rest => (digitsToNat rest).map (fun n => -(n : Int))
  | '+' :: rest => (digitsToNat rest).map (fun n => (n : Int))
  | rest => (digitsToNat rest).map (fun n => (n : Int))

/-- Python `str(i)` for an `Int`, as a character list. -/
def intToChars (i : Int) : List Char := (toString i).toList

/-- Python `s.startswith(c)` for a single-character needle. -/
def startsWithChar (l : List Char) (c : Char) : Bool :=
  match l with
  | [] => false
  | x :: _ => x = c

/-! ## iso15434.py: field registry -/

/-- One `Iso15434Field` instance: display name and data identifier.
The registry contains no two instances with equal name and identifier, so
structural equality coincides with Python object identity here. -/
structure Iso15434Field where
  name : List Char
  identifier : List Char
  deriving DecidableEq, Repr

def FieldPo : Iso15434Field := ⟨"Customer PO".toList, "K".toList⟩
def FieldPackingListNumber : Iso15434Field := ⟨"Packing List Number".toList, "11K".toList⟩
def FieldShipDate : Iso15434Field := ⟨"Ship Date".toList, "6D".toList⟩
def FieldCustomerPartNumber : Iso15434Field := ⟨"Customer Part Number".toList, "P".toList⟩
def FieldSupplierPartNumber : Iso15434Field := ⟨"Supplier Part Number".toList, "1P".toList⟩
def FieldCustomerPoLine : Iso15434Field := ⟨"Customer PO Line".toList, "4K".toList⟩
def FieldQuantity : Iso15434Field := ⟨"Quantity".toList, "Q".toList⟩
def FieldDateCode0 : Iso15434Field := ⟨"Date Code".toList, "9D".toList⟩
def FieldDateCode1 : Iso15434Field := ⟨"Date Code".toList, "10D".toList⟩
def FieldLotCode : Iso15434Field := ⟨"Lot Code".toList, "1T".toList⟩
def FieldCountryOfOrigin : Iso15434Field := ⟨"Country of Origin".toList, "4L".toList⟩
def FieldBinCode : Iso15434Field := ⟨"BIN Code".toList, "33P".toList⟩
def FieldPackageCount : Iso15434Field := ⟨"Package Count".toList, "13Q".toList⟩
def FieldWeight : Iso15434Field := ⟨"Weight".toList, "7Q".toList⟩
def FieldManufacturer : Iso15434Field := ⟨"Manufacturer".toList, "1V".toList⟩
def FieldRohsCc : Iso15434Field := ⟨"RoHS/CC".toList, "E".toList⟩

def kAllFields : List Iso15434Field :=
  [FieldPo, FieldPackingListNumber, FieldShipDate, FieldCustomerPartNumber,
   FieldSupplierPartNumber, FieldCustomerPoLine, FieldQuantity, FieldDateCode0,
   FieldDateCode1, FieldLotCode, FieldCountryOfOrigin, FieldBinCode,
   FieldPackageCount, FieldWeight, FieldManufacturer, FieldRohsCc]

/-- `kFieldsByIdentifier` as a lookup (identifiers in `kAllFields` are
pairwise distinct, so first-match equals the Python dict comprehension). -/
def kFieldsByIdentifier (ident : List Char) : Option Iso15434Field :=
  kAllFields.find? (fun f => f.identifier = ident)

/-- One decoded `Iso15434Record`: identifier and raw value. -/
structure Iso15434Record where
  identifier : List Char
  raw : List Char
  deriving DecidableEq, Repr

/-- Key of the `data_elements` dict: the field object for registered
identifiers (`Union[Iso15434Field, str]` in the source), the literal
identifier string otherwise. -/
inductive FieldKey : Type
  | fieldKey (f : Iso15434Field)
  | strKey (s : List Char)
  deriving DecidableEq, Repr

/-! ## iso15434.py: decoder -/

def kComplianceIndicator : List Char := "[)>".toList
def kRecordSeparatorChar : Char := '␞'
def kGroupSeparatorChar : Char := '␝'
def kEndOfTransmissionChar : Char := '␄'
def kHeader : List Char :=
  kComplianceIndicator ++ [kRecordSeparatorChar] ++ "06".toList ++ [kGroupSeparatorChar]
def kTrailer : List Char := [kRecordSeparatorChar, kEndOfTransmissionChar]

/-- The `while data_element and data_element[0].isnumeric()` loop: splits a
segment into its maximal numeric run and the remainder. -/
def spanNumeric : List Char → List Char × List Char
  | [] => ([], [])
  | c :: cs =>
    if pyIsNumeric c then
      let (p, r) := spanNumeric cs
      (c :: p, r)
    else ([], c :: cs)

/-- Lines 82-87 of `iso15434.py`: identifier = numeric run plus exactly one
further character; `data_element[0]` on the exhausted remainder raises
`IndexError`. -/
def parseSegment (seg : List Char) : Except PyErr (List Char × List Char) :=
  match spanNumeric seg with
  | (_, []) => Except.error PyErr.indexError
  | (digits, t :: value) => Except.ok (digits ++ [t], value)

/-- Key chosen for an identifier (lines 89-94). -/
def keyOf (ident : List Char) : FieldKey :=
  match kFieldsByIdentifier ident with
  | some f => FieldKey.fieldKey f
  | none => FieldKey.strKey ident

/-- Python `str.split(sep)` for the one-character group separator: always
returns at least one (possibly empty) piece. -/
def splitOnGS : List Char → List (List Char)
  | [] => [[]]
  | c :: cs =>
    if c = kGroupSeparatorChar then [] :: splitOnGS cs
    else
      match splitOnGS cs with
      | [] => [[c]]
      | r :: rs => (c :: r) :: rs

/-- The `for data_element in data.split(...)` loop (lines 81-97): parse each
segment, raise `AssertionError` on a repeated key, append otherwise. -/
def decodeElements : List (List Char) → List (FieldKey × Iso15434Record) →
    Except PyErr (List (FieldKey × Iso15434Record))
  | [], acc => Except.ok acc
  | seg :: rest, acc =>
    match parseSegment seg with
    | Except.error e => Except.error e
    | Except.ok (ident, value) =>
      let key := keyOf ident
      if (aget acc key).isSome then Except.error PyErr.assertError
      else decodeElements rest (acc ++ [(key, ⟨ident, value⟩)])

/-- A decoded message: the `data` dict of an `Iso15434` instance. -/
structure Iso15434 where
  data : List (FieldKey × Iso15434Record)
  deriving DecidableEq, Repr

/-- `Iso15434.from_data`.  `Except.ok none` models the Python `None` return
(not this format); `Except.error` models an uncaught exception. -/
def from_data (data : List Char) : Except PyErr (Option Iso15434) :=
  if kHeader.isPrefixOf data then
    let data1 := data.drop kHeader.length
    let data2 :=
      if kTrailer.isSuffixOf data1 then data1.take (data1.length - kTrailer.length)
      else data1
    match decodeElements (splitOnGS data2) [] with
    | Except.error e => Except.error e
    | Except.ok elems => Except.ok (some ⟨elems⟩)
  else Except.ok none

/-! ## scanner.py: CSV column constants -/

def kCsvColBarcode : List Char := "barcode".toList
def kCsvSymbology : List Char := "symbology".toList
def kCsvColCategory : List Char := "category".toList
def kCsvColSupplierPart : List Char := "supplier_part".toList
def kCsvColCurrQty : List Char := "curr_qty".toList
def kCsvColDesc : List Char := "supplier_desc".toList
def kCsvColPackQty : List Char := "pack_qty".toList
def kCsvColDistBarcodeData : List Char := "dist_barcode_data".toList
def kCsvColDistProdData : List Char := "dist_prod_data".toList
def kCsvColScanTime : List Char := "scan_time".toList

/-! ## scanner.py: scan_fn de-duplication

Timestamps are integers (microseconds, the resolution of `datetime`),
measured from `datetime.datetime(1990, 1, 1)`, the default used when a
barcode text has never been seen. -/

/-- `kBarcodeTimeoutThreshold = datetime.timedelta(seconds=4)` in µs. -/
def kBarcodeTimeoutThreshold : Int := 4000000

/-- `datetime.datetime(1990, 1, 1)` on the timeline above. -/
def kDefaultLastSeen : Int := 0

/-- The `last_seen_times` table owned by `scan_fn`. -/
structure ScanDedupState where
  last_seen_times : List (List Char × Int)
  deriving DecidableEq, Repr

/-- Classification of one sighting: enqueued as new, or suppressed. -/
inductive ScanClass : Type
  | newScan
  | repeatScan
  deriving DecidableEq, Repr

/-- Lines 104-113 of `scanner.py` for one decoded barcode: a sighting is new
when `frame_time - last_seen > kBarcodeTimeoutThreshold`, and the last-seen
time is refreshed unconditionally. -/
def dedupStep (st : ScanDedupState) (text : List Char) (frame_time : Int) :
    ScanClass × ScanDedupState :=
  let last := (aget st.last_seen_times text).getD kDefaultLastSeen
  let cls :=
    if frame_time - last > kBarcodeTimeoutThreshold then ScanClass.newScan
    else ScanClass.repeatScan
  (cls, ⟨ainsert st.last_seen_times text frame_time⟩)

/-! ## scanner.py: DigiKey API collaborator model

Flattened response records carrying exactly the values the call sites in
`scanner.py` read; `dumpJson` stands for `model_dump_json()`.  Each call
returns a response or raises: the client signals failure by
`AssertionError` (`assert response.status_code == 200` in
`digikey_api.py`). -/

structure Product2dBarcodeResponse where
  DigiKeyPartNumber : List Char
  dumpJson : List Char
  deriving DecidableEq, Repr

structure ProductBarcodeResponse where
  DigiKeyPartNumber : List Char
  ManufacturerPartNumber : List Char
  Quantity : Int
  dumpJson : List Char
  deriving DecidableEq, Repr

/-- `ProductDetails` with the three values read at the call sites:
`.Product.Description.ProductDescription`, `.Product.Category.simple_str()`
and `model_dump_json()`. -/
structure ProductDetails where
  ProductDescription : List Char
  CategorySimpleStr : List Char
  dumpJson : List Char
  deriving DecidableEq, Repr

structure DigiKeyApi where
  barcode2d : List Char → Except PyErr Product2dBarcodeResponse
  barcode : List Char → Except PyErr ProductBarcodeResponse
  product_details : List Char → Except PyErr ProductDetails

/-! ## scanner.py: csv_fn state machine -/

/-- User-visible messages printed by `csv_fn`, as tags (the exact text never
influences control flow). -/
inductive Msg : Type
  | scannedInfo
  | warnBarcodeLookupFailed
  | productInfo
  | warnProductLookupFailed
  | lineSaved
  | lineDeleted
  | updatedQuantity (q : Int)
  | warnUnknownQuantityModifier
  | warnUnknownCommand
  | warnDuplicateRow
  | warnFailedDecode
  | warnUnknownSymbology
  | info1d
  deriving DecidableEq, Repr

/-- An open record / CSV row: the `curr_dict` Python dict. -/
def Rec : Type := List (List Char × List Char)

instance : DecidableEq Rec := by unfold Rec; infer_instance

/-- State owned by the `csv_fn` thread: the open-record slot, the in-memory
key index `records`, and the rows appended to the CSV so far. -/
structure CsvState where
  curr : Option Rec
  records : List (List Char × Rec)
  written : List Rec
  deriving DecidableEq

/-- Events drained from `data_queue`: operator input lines (`str`) and
camera scans (`zxingcpp.Result`, already reduced to symbology + text). -/
inductive Event : Type
  | line (data : List Char)
  | scan (symbology : List Char) (text : List Char)

/-- `write_line` (lines 150-154): append the open record to the CSV and
update the key index.  `csvw.writerow` precedes the `records[...]` index
update, so a missing barcode key raises `KeyError` only after the row is
written. -/
def write_line (st : CsvState) : CsvState × Option PyErr :=
  match st.curr with
  | none => (st, none)
  | some d =>
    let st1 := { st with written := st.written ++ [d] }
    match aget d kCsvColBarcode with
    | none => (st1, some PyErr.keyError)
    | some key => ({ st1 with records := ainsert st1.records key d }, none)

/-- Python `'␞'.encode('unicode_escape')` of one character
(lower-case hex, backslash and the common controls escaped, printable
ASCII kept). -/
def escapeChar (c : Char) : List Char :=
  let hexDigit : Nat → Char := fun n =>
    if n < 10 then Char.ofNat ('0'.toNat + n) else Char.ofNat ('a'.toNat + n - 10)
  let hex : Nat → Nat → List Char := fun w n =>
    (List.range w).reverse.map (fun i => hexDigit (n / 16 ^ i % 16))
  if c = '\\' then ['\\', '\\']
  else if c = '\n' then ['\\', 'n']
  else if c = '\r' then ['\\', 'r']
  else if c = '\t' then ['\\', 't']
  else if 0x20 ≤ c.toNat ∧ c.toNat < 0x7f then [c]
  else if c.toNat < 0x100 then '\\' :: 'x' :: hex 2 c.toNat
  else if c.toNat < 0x10000 then '\\' :: 'u' :: hex 4 c.toNat
  else '\\' :: 'U' :: hex 8 c.toNat

/-- `str(raw.encode('unicode_escape').decode('ascii'))`: the escaped barcode
key. -/
def pyUnicodeEscape (l : List Char) : List Char := (l.map escapeChar).flatten

/-- The freshly seeded record of lines 246-248: key, symbology, scan time. -/
def baseRec (now sym text : List Char) : Rec :=
  [(kCsvColBarcode, pyUnicodeEscape text), (kCsvSymbology, sym), (kCsvColScanTime, now)]

/-- `process_iso15434` (lines 156-184).  Returns the record as mutated so
far, the messages printed, and the exception escaping the function, if any
(`KeyError` when the decoded message lacks the supplier-part or quantity
field; only `AssertionError` is caught around the lookup calls). -/
def process_iso15434 (api : DigiKeyApi) (barcode_raw : List Char)
    (decoded : Iso15434) (curr : Rec) : Rec × List Msg × Option PyErr :=
  let distributor :=
    if decoded.data.any (fun kv => kv.1 = FieldKey.strKey "20Z".toList) then
      "DigiKey2d".toList
    else "Mouser2d".toList
  match aget decoded.data (FieldKey.fieldKey FieldSupplierPartNumber) with
  | none => (curr, [], some PyErr.keyError)
  | some supRec =>
    let curr1 := ainsert curr kCsvColSupplierPart supRec.raw
    match aget decoded.data (FieldKey.fieldKey FieldQuantity) with
    | none => (curr1, [], some PyErr.keyError)
    | some qtyRec =>
      let curr2 := ainsert curr1 kCsvColPackQty qtyRec.raw
      let afterBarcode : Except PyErr (Rec × List Char × List Msg) :=
        if distributor = "DigiKey2d".toList then
          match api.barcode2d barcode_raw with
          | Except.ok resp =>
            Except.ok (ainsert curr2 kCsvColDistBarcodeData resp.dumpJson,
                       resp.DigiKeyPartNumber, [Msg.scannedInfo])
          | Except.error PyErr.assertError =>
            match pyGetItem curr2 kCsvColSupplierPart with
            | Except.ok s => Except.ok (curr2, s, [Msg.scannedInfo, Msg.warnBarcodeLookupFailed])
            | Except.error e => Except.error e
          | Except.error e => Except.error e
        else
          match pyGetItem curr2 kCsvColSupplierPart with
          | Except.ok s => Except.ok (curr2, s, [Msg.scannedInfo])
          | Except.error e => Except.error e
      match afterBarcode with
      | Except.error e => (curr2, [Msg.scannedInfo], some e)
      | Except.ok (curr3, searchterm, log1) =>
        match api.product_details searchterm with
        | Except.ok p =>
          let curr4 := ainsert curr3 kCsvColDistProdData p.dumpJson
          let curr5 := ainsert curr4 kCsvColDesc p.ProductDescription
          let curr6 := ainsert curr5 kCsvColCategory p.CategorySimpleStr
          (curr6, log1 ++ [Msg.productInfo], none)
        | Except.error PyErr.assertError =>
          (curr3, log1 ++ [Msg.warnProductLookupFailed], none)
        | Except.error e => (curr3, log1, some e)

/-- The quantity-delta branch of `csv_fn` (lines 198-207).  The guard does
not test `curr_dict is not None`: after a successful `int(data)` parse, the
`curr_dict.get` attribute access on `None` raises `AttributeError`, which
no handler catches (only `ValueError` is).  `curr_dict[kCsvColPackQty]` is
an eagerly evaluated default, so a missing pack quantity raises `KeyError`
even when a current quantity exists. -/
def qtyBranch (st : CsvState) (data : List Char) : CsvState × List Msg × Option PyErr :=
  let data1 := if startsWithChar data '+' then data.drop 1 else data
  match pyInt data1 with
  | none => (st, [Msg.warnUnknownQuantityModifier], none)
  | some qtymod =>
    match st.curr with
    | none => (st, [], some PyErr.attributeError)
    | some d =>
      match pyGetItem d kCsvColPackQty with
      | Except.error e => (st, [], some e)
      | Except.ok packv =>
        let prior := (aget d kCsvColCurrQty).getD packv
        match pyInt prior with
        | none => (st, [Msg.warnUnknownQuantityModifier], none)
        | some priorq =>
          let q := priorq + qtymod
          ({ st with curr := some (ainsert d kCsvColCurrQty (intToChars q)) },
           [Msg.updatedQuantity q], none)

/-- The manual product-override branch of `csv_fn` (lines 208-217), entered
with `curr_dict` not `None`.  Only `AssertionError` from the lookup is
caught. -/
def pBranch (api : DigiKeyApi) (st : CsvState) (d : Rec) (data : List Char) :
    CsvState × List Msg × Option PyErr :=
  let pn := data.drop 1
  match api.product_details pn with
  | Except.ok p =>
    let d1 := ainsert d kCsvColDistProdData p.dumpJson
    let d2 := ainsert d1 kCsvColDesc p.ProductDescription
    let d3 := ainsert d2 kCsvColCategory p.CategorySimpleStr
    ({ st with curr := some d3 }, [Msg.productInfo], none)
  | Except.error PyErr.assertError => (st, [Msg.warnProductLookupFailed], none)
  | Except.error e => (st, [], some e)

/-- The `isinstance(data, str)` arm of the event loop (lines 190-219).  The
four guarded commands are mutually exclusive on the token's first
character, so the `if/elif` chain is rendered as a guard list.  -/
def lineStep (api : DigiKeyApi) (st : CsvState) (data : List Char) :
    CsvState × List Msg × Option PyErr :=
  if data.isEmpty && st.curr.isSome then
    let (st1, e) := write_line st
    match e with
    | some e => (st1, [], some e)
    | none => ({ st1 with curr := none }, [Msg.lineSaved], none)
  else if startsWithChar data 'd' && st.curr.isSome then
    ({ st with curr := none }, [Msg.lineDeleted], none)
  else if startsWithChar data '+' || startsWithChar data '-' || data = ['0'] then
    qtyBranch st data
  else if startsWithChar data 'p' && st.curr.isSome then
    match st.curr with
    | some d => pBranch api st d data
    | none => (st, [Msg.warnUnknownCommand], none)
  else (st, [Msg.warnUnknownCommand], none)

/-- The `isinstance(data, zxingcpp.Result)` arm of the event loop
(lines 238-273): commit any open record, seed a fresh one, then decode and
enrich according to the symbology family.  Exceptions escaping
`Iso15434.from_data` or `process_iso15434` propagate (only the lookup
calls' `AssertionError` is handled inside). -/
def scanStep (api : DigiKeyApi) (now : List Char) (st : CsvState)
    (sym text : List Char) : CsvState × List Msg × Option PyErr :=
  let (st1, e1) := write_line st
  match e1 with
  | some e => (st1, [], some e)
  | none =>
    let key := pyUnicodeEscape text
    let log0 := if (aget st1.records key).isSome then [Msg.warnDuplicateRow] else []
    let base := baseRec now sym text
    let st2 := { st1 with curr := some base }
    if "]d".toList.isPrefixOf sym then
      match from_data text with
      | Except.error e => (st2, log0, some e)
      | Except.ok none => (st2, log0 ++ [Msg.warnFailedDecode], none)
      | Except.ok (some decoded) =>
        let (d1, log1, e2) := process_iso15434 api text decoded base
        ({ st1 with curr := some d1 }, log0 ++ log1, e2)
    else if "]C".toList.isPrefixOf sym then
      match api.barcode text with
      | Except.error PyErr.assertError => (st2, log0 ++ [Msg.warnProductLookupFailed], none)
      | Except.error e => (st2, log0, some e)
      | Except.ok b =>
        let d1 := ainsert base kCsvColDistBarcodeData b.dumpJson
        let d2 := ainsert d1 kCsvColSupplierPart b.ManufacturerPartNumber
        let d3 := ainsert d2 kCsvColPackQty (intToChars b.Quantity)
        match api.product_details b.DigiKeyPartNumber with
        | Except.error PyErr.assertError =>
          ({ st1 with curr := some d3 }, log0 ++ [Msg.warnProductLookupFailed], none)
        | Except.error e => ({ st1 with curr := some d3 }, log0, some e)
        | Except.ok p =>
          let d4 := ainsert d3 kCsvColDistProdData p.dumpJson
          let d5 := ainsert d4 kCsvColDesc p.ProductDescription
          let d6 := ainsert d5 kCsvColCategory p.CategorySimpleStr
          ({ st1 with curr := some d6 }, log0 ++ [Msg.info1d], none)
    else (st2, log0 ++ [Msg.warnUnknownSymbology], none)

/-- One iteration of the `csv_fn` event loop for one dequeued event.  The
returned `Option PyErr` is an exception escaping the loop body (which kills
the thread); the returned state keeps all mutations performed before the
raise. -/
def csvStep (api : DigiKeyApi) (now : List Char) (st : CsvState) :
    Event → CsvState × List Msg × Option PyErr
  | Event.line data => lineStep api st data
  | Event.scan sym text => scanStep api now st sym text

/-- A collaborator whose every call fails with `AssertionError` (HTTP
non-200 responses in `digikey_api.py`). -/
def failApi : DigiKeyApi :=
  ⟨fun _ => Except.error PyErr.assertError,
   fun _ => Except.error PyErr.assertError,
   fun _ => Except.error PyErr.assertError⟩

/-- The Idle pipeline state with an empty index and no rows written. -/
def idleSt : CsvState := ⟨none, [], []⟩

/-! ## Spec-side grammar (for claim C4)

These definitions follow the wording of spec §6 ("Segmented payload
grammar"), to be compared against the decoder translated from the source:
a well-formed segment is zero or more decimal digits, then exactly one
non-digit type character, then value characters; segments are joined by the
group separator after the fixed header, with an optional trailer. -/

/-- A segment well-formed under the spec grammar. -/
def SegWf (seg : List Char) : Prop :=
  ∃ ds t v, seg = ds ++ t :: v ∧ (∀ c ∈ ds, pyIsNumeric c = true) ∧ pyIsNumeric t = false

/-- Join segments with the group separator character. -/
def joinGS : List (List Char) → List Char
  | [] => []
  | [s] => s
  | s :: rest => s ++ kGroupSeparatorChar :: joinGS rest

/-- A payload well-formed under the spec grammar: header, separated
segments, optional trailer. -/
def buildPayload (segs : List (List Char)) (withTrailer : Bool) : List Char :=
  kHeader ++ joinGS segs ++ (if withTrailer then kTrailer else [])

/-- The identifier the decoder derives from a segment (digit run plus the
following type character). -/
def identOf (seg : List Char) : List Char :=
  (spanNumeric seg).1 ++ (spanNumeric seg).2.take 1

/-! ## Concrete instances used to evaluate the model -/

/-- A collaborator whose `product_details` succeeds with a fixed response
and whose barcode calls fail. -/
def okProduct : ProductDetails := ⟨"NewDesc".toList, "NewCat".toList, "{}".toList⟩

def okApi : DigiKeyApi :=
  ⟨fun _ => Except.error PyErr.assertError,
   fun _ => Except.error PyErr.assertError,
   fun _ => Except.ok okProduct⟩

/-- An Open pipeline state holding the given record, empty index, no rows. -/
def openRecSt (d : Rec) : CsvState := ⟨some d, [], []⟩

/-- An open record with a barcode key and a pack quantity of 100. -/
def packRec : Rec := [(kCsvColBarcode, "KEY1".toList), (kCsvColPackQty, "100".toList)]

/-- An open record with barcode key, pack quantity 100 and current
quantity 40. -/
def overrideRec : Rec :=
  [(kCsvColBarcode, "KEY1".toList), (kCsvColPackQty, "100".toList),
   (kCsvColCurrQty, "40".toList)]

/-- A decodable payload carrying supplier part number and quantity. -/
def tPayloadGood : List Char := kHeader ++ "1PXAF4444".toList ++ [kGroupSeparatorChar] ++ "Q3".toList

/-- A payload repeating the `1P` identifier. -/
def tPayloadDup : List Char := kHeader ++ "1PA".toList ++ [kGroupSeparatorChar] ++ "1PB".toList

/-- A decodable payload lacking both `1P` and `Q`. -/
def tPayloadNoPart : List Char := kHeader ++ "K123".toList

/-- The decode of `tPayloadGood`. -/
def mGood : Iso15434 :=
  ⟨[(FieldKey.fieldKey FieldSupplierPartNumber, ⟨"1P".toList, "XAF4444".toList⟩),
    (FieldKey.fieldKey FieldQuantity, ⟨"Q".toList, "3".toList⟩)]⟩

/-- The decode of `tPayloadNoPart`. -/
def mNoPart : Iso15434 := ⟨[(FieldKey.fieldKey FieldPo, ⟨"K".toList, "123".toList⟩)]⟩

/-- A payload with a trailing group separator (empty final segment). -/
def tPayloadTrailGS : List Char := kHeader ++ "1PABC".toList ++ [kGroupSeparatorChar]

/-- A payload whose single segment consists only of digits. -/
def tPayloadDigits : List Char := kHeader ++ "123".toList

/-! ## Helper lemmas -/

theorem aget_ainsert_self {κ α : Type} [DecidableEq κ] (l : List (κ × α)) (k : κ) (v : α) :
    aget (ainsert l k v) k = some v := by
  induction l with
  | nil => simp [ainsert, aget]
  | cons kv rest ih =>
    obtain ⟨k₀, v₀⟩ := kv
    by_cases h : k₀ = k
    · simp [ainsert, aget, h]
    · simp [ainsert, aget, h, ih]

theorem aget_ainsert_ne {κ α : Type} [DecidableEq κ] (l : List (κ × α)) (k k' : κ) (v : α)
    (hne : k' ≠ k) : aget (ainsert l k v) k' = aget l k' := by
  induction l with
  | nil => simp [ainsert, aget, Ne.symm hne]
  | cons kv rest ih =>
    obtain ⟨k₀, v₀⟩ := kv
    by_cases h : k₀ = k
    · subst h
      simp [ainsert, aget, Ne.symm hne]
    · by_cases h' : k₀ = k'
      · subst h'
        simp [ainsert, aget, hne]
      · simp [ainsert, aget, h, h', ih]

theorem aget_append_single_none {κ α : Type} [DecidableEq κ] (l : List (κ × α)) (k k' : κ)
    (v : α) (h : aget l k' = none) (hne : k ≠ k') : aget (l ++ [(k, v)]) k' = none := by
  induction l with
  | nil => simp [aget, hne]
  | cons kv rest ih =>
    obtain ⟨k₀, v₀⟩ := kv
    by_cases h0 : k₀ = k'
    · simp [aget, h0] at h
    · simp [aget, h0] at h ⊢
      exact ih h

theorem isPrefixOf_self_append (l r : List Char) : l.isPrefixOf (l ++ r) = true :=
  List.isPrefixOf_iff_prefix.2 (List.prefix_append l r)

theorem isSuffixOf_self_append (l r : List Char) : l.isSuffixOf (r ++ l) = true :=
  List.isSuffixOf_iff_suffix.2 (List.suffix_append r l)

theorem isSuffixOf_trailer_of_noRS (body : List Char)
    (h : kRecordSeparatorChar ∉ body) : kTrailer.isSuffixOf body = false := by
  by_contra hc
  have hs : kTrailer <:+ body :=
    List.isSuffixOf_iff_suffix.1 (by revert hc; cases kTrailer.isSuffixOf body <;> simp)
  obtain ⟨pre, hpre⟩ := hs
  apply h
  rw [← hpre]
  simp [kTrailer]

theorem splitOnGS_ne_nil (l : List Char) : splitOnGS l ≠ [] := by
  cases l with
  | nil => simp [splitOnGS]
  | cons c cs =>
    unfold splitOnGS
    by_cases h : c = kGroupSeparatorChar
    · simp [h]
    · simp only [h, if_false]
      cases splitOnGS cs <;> simp

theorem splitOnGS_noGS (s : List Char) (h : kGroupSeparatorChar ∉ s) :
    splitOnGS s = [s] := by
  induction s with
  | nil => simp [splitOnGS]
  | cons c cs ih =>
    have hc : c ≠ kGroupSeparatorChar := fun hc => h (hc ▸ List.mem_cons_self c cs)
    have hcs : kGroupSeparatorChar ∉ cs := fun hm => h (List.mem_cons_of_mem c hm)
    unfold splitOnGS
    simp only [hc, if_false, ih hcs]

theorem splitOnGS_append_sep (s l : List Char) (h : kGroupSeparatorChar ∉ s) :
    splitOnGS (s ++ kGroupSeparatorChar :: l) = s :: splitOnGS l := by
  induction s with
  | nil => simp [splitOnGS]
  | cons c cs ih =>
    have hc : c ≠ kGroupSeparatorChar := fun hc => h (hc ▸ List.mem_cons_self c cs)
    have hcs : kGroupSeparatorChar ∉ cs := fun hm => h (List.mem_cons_of_mem c hm)
    simp only [List.cons_append]
    conv_lhs => unfold splitOnGS
    simp only [hc, if_false, ih hcs]

theorem splitOnGS_joinGS (segs : List (List Char)) (hne : segs ≠ [])
    (h : ∀ seg ∈ segs, kGroupSeparatorChar ∉ seg) :
    splitOnGS (joinGS segs) = segs := by
  induction segs with
  | nil => exact absurd rfl hne
  | cons s rest ih =>
    cases rest with
    | nil =>
      show splitOnGS (joinGS [s]) = [s]
      exact splitOnGS_noGS s (h s (List.mem_cons_self s []))
    | cons t r =>
      show splitOnGS (s ++ kGroupSeparatorChar :: joinGS (t :: r)) = s :: (t :: r)
      rw [splitOnGS_append_sep s _ (h s (List.mem_cons_self s _))]
      rw [ih (by simp) (fun seg hm => h seg (List.mem_cons_of_mem s hm))]

theorem mem_joinGS {c : Char} {segs : List (List Char)} (h : c ∈ joinGS segs) :
    c = kGroupSeparatorChar ∨ ∃ seg ∈ segs, c ∈ seg := by
  induction segs with
  | nil => simp [joinGS] at h
  | cons s rest ih =>
    cases rest with
    | nil =>
      right
      exact ⟨s, List.mem_cons_self s [], h⟩
    | cons t r =>
      have h' : c ∈ s ++ kGroupSeparatorChar :: joinGS (t :: r) := h
      rcases List.mem_append.1 h' with hs | hrest
      · right; exact ⟨s, List.mem_cons_self s _, hs⟩
      · rcases List.mem_cons.1 hrest with hgs | hjoin
        · left; exact hgs
        · rcases ih hjoin with hgs | ⟨seg, hseg, hc⟩
          · left; exact hgs
          · right; exact ⟨seg, List.mem_cons_of_mem s hseg, hc⟩

theorem spanNumeric_eq (ds : List Char) (t : Char) (v : List Char)
    (hds : ∀ c ∈ ds, pyIsNumeric c = true) (ht : pyIsNumeric t = false) :
    spanNumeric (ds ++ t :: v) = (ds, t :: v) := by
  induction ds with
  | nil => simp [spanNumeric, ht]
  | cons c cs ih =>
    have hc : pyIsNumeric c = true := hds c (List.mem_cons_self c cs)
    have hcs : ∀ x ∈ cs, pyIsNumeric x = true := fun x hx => hds x (List.mem_cons_of_mem c hx)
    simp [spanNumeric, hc, ih hcs]

theorem identOf_wf (ds : List Char) (t : Char) (v : List Char)
    (hds : ∀ c ∈ ds, pyIsNumeric c = true) (ht : pyIsNumeric t = false) :
    identOf (ds ++ t :: v) = ds ++ [t] := by
  simp [identOf, spanNumeric_eq ds t v hds ht]

theorem parseSegment_wf (ds : List Char) (t : Char) (v : List Char)
    (hds : ∀ c ∈ ds, pyIsNumeric c = true) (ht : pyIsNumeric t = false) :
    parseSegment (ds ++ t :: v) = Except.ok (ds ++ [t], v) := by
  simp [parseSegment, spanNumeric_eq ds t v hds ht]

theorem fieldsByIdentifier_identifier {i : List Char} {f : Iso15434Field}
    (h : kFieldsByIdentifier i = some f) : f.identifier = i := by
  unfold kFieldsByIdentifier at h
  have h2 := List.find?_some (p := fun g : Iso15434Field => decide (g.identifier = i)) h
  simp only [decide_eq_true_eq] at h2
  exact h2

theorem keyOf_inj {i j : List Char} (h : keyOf i = keyOf j) : i = j := by
  unfold keyOf at h
  cases hi : kFieldsByIdentifier i with
  | some f =>
    cases hj : kFieldsByIdentifier j with
    | some g =>
      rw [hi, hj] at h
      cases h
      rw [← fieldsByIdentifier_identifier hi, ← fieldsByIdentifier_identifier hj]
    | none => rw [hi, hj] at h; cases h
  | none =>
    cases hj : kFieldsByIdentifier j with
    | some g => rw [hi, hj] at h; cases h
    | none => rw [hi, hj] at h; cases h; rfl

theorem decodeElements_total (segs : List (List Char)) :
    ∀ acc : List (FieldKey × Iso15434Record),
    (∀ seg ∈ segs, SegWf seg) →
    (∀ seg ∈ segs, aget acc (keyOf (identOf seg)) = none) →
    segs.Pairwise (fun a b => identOf a ≠ identOf b) →
    ∃ elems, decodeElements segs acc = Except.ok elems := by
  induction segs with
  | nil => exact fun acc _ _ _ => ⟨acc, rfl⟩
  | cons seg rest ih =>
    intro acc hwf hacc hpw
    obtain ⟨ds, t, v, hseg, hds, ht⟩ := hwf seg (List.mem_cons_self seg rest)
    have hid : identOf seg = ds ++ [t] := hseg ▸ identOf_wf ds t v hds ht
    have hparse : parseSegment seg = Except.ok (ds ++ [t], v) :=
      hseg ▸ parseSegment_wf ds t v hds ht
    have hdup : aget acc (keyOf (ds ++ [t])) = none := by
      have := hacc seg (List.mem_cons_self seg rest)
      rwa [hid] at this
    have step : decodeElements (seg :: rest) acc =
        decodeElements rest (acc ++ [(keyOf (ds ++ [t]), ⟨ds ++ [t], v⟩)]) := by
      conv_lhs => unfold decodeElements
      rw [hparse]
      simp [hdup]
    rw [step]
    apply ih
    · exact fun s hs => hwf s (List.mem_cons_of_mem seg hs)
    · intro s hs
      have hne : identOf seg ≠ identOf s := (List.pairwise_cons.1 hpw).1 s hs
      have hkne : keyOf (ds ++ [t]) ≠ keyOf (identOf s) := by
        intro hk
        exact hne (hid ▸ keyOf_inj hk)
      exact aget_append_single_none _ _ _ _ (hacc s (List.mem_cons_of_mem seg hs)) hkne
    · exact (List.pairwise_cons.1 hpw).2

theorem noRS_joinGS (segs : List (List Char))
    (hRS : ∀ seg ∈ segs, kRecordSeparatorChar ∉ seg) :
    kRecordSeparatorChar ∉ joinGS segs := by
  intro hmem
  rcases mem_joinGS hmem with h | ⟨seg, hseg, hc⟩
  · exact absurd h (by decide)
  · exact hRS seg hseg hc

theorem from_data_buildPayload (segs : List (List Char)) (wt : Bool) (hne : segs ≠ [])
    (hGS : ∀ seg ∈ segs, kGroupSeparatorChar ∉ seg)
    (hRS : ∀ seg ∈ segs, kRecordSeparatorChar ∉ seg) :
    from_data (buildPayload segs wt) =
      match decodeElements segs [] with
      | Except.error e => Except.error e
      | Except.ok elems => Except.ok (some ⟨elems⟩) := by
  unfold buildPayload from_data
  rw [List.append_assoc, isPrefixOf_self_append]
  simp only [if_true, List.drop_left]
  cases wt with
  | true =>
    simp only [ite_true, if_true]
    rw [isSuffixOf_self_append]
    simp only [ite_true, if_true, List.length_append]
    have hlen : (joinGS segs).length + kTrailer.length - kTrailer.length =
        (joinGS segs).length := by omega
    rw [hlen, List.take_left, splitOnGS_joinGS segs hne hGS]
  | false =>
    simp only [Bool.false_eq_true, ite_false, List.append_nil]
    rw [isSuffixOf_trailer_of_noRS _ (noRS_joinGS segs hRS)]
    simp only [Bool.false_eq_true, ite_false]
    rw [splitOnGS_joinGS segs hne hGS]

theorem write_line_idle {st : CsvState} (h : st.curr = none) : write_line st = (st, none) := by
  unfold write_line
  rw [h]

theorem write_line_open {st : CsvState} {d : Rec} {key : List Char} (h : st.curr = some d)
    (hk : aget d kCsvColBarcode = some key) :
    write_line st =
      ({ st with written := st.written ++ [d], records := ainsert st.records key d }, none) := by
  simp [write_line, h, hk]

/-! ## Claims -/

/-- C10: for inputs that start with the valid header but contain an empty
segment (trailing group separator) or a digits-only segment, the decoder
raises an uncaught `IndexError` — it neither returns `None`, nor a decoded
message, nor the duplicate-identifier error — and the exception propagates
out of the scan-processing step of the event loop. -/
theorem c10_indexerror_on_empty_or_digit_segment :
    from_data tPayloadTrailGS = Except.error PyErr.indexError ∧
    from_data tPayloadDigits = Except.error PyErr.indexError ∧
    (csvStep failApi "T".toList idleSt (Event.scan "]d1".toList tPayloadTrailGS)).2.2 =
      some PyErr.indexError := by
  refine ⟨rfl, rfl, ?_⟩
  decide

/-- C3 (counterexample): on a valid-header payload repeating the `1P`
identifier, decoding raises `AssertionError`, and — contrary to the claim
that the pipeline continues with a minimally populated record — the
exception escapes the event-loop step uncaught (`csv_fn` only handles the
`None` return of `from_data`, not its assertion). -/
theorem c3_counterexample_dup_identifier_escapes :
    from_data tPayloadDup = Except.error PyErr.assertError ∧
    (csvStep failApi "T".toList idleSt (Event.scan "]d1".toList tPayloadDup)).2.2 =
      some PyErr.assertError := by
  refine ⟨rfl, ?_⟩
  decide

/-- C3 (amended): a duplicate identifier is a fatal decode error
(`AssertionError`) for that single decode attempt, and the current record
is left minimally populated (key/symbology/time only) with no extra row
written — but the exception propagates out of the event loop instead of the
pipeline continuing. -/
theorem c3_amended_dup_identifier_fatal (api : DigiKeyApi) (now : List Char) (st : CsvState)
    (sym text : List Char) (hopen : st.curr = none)
    (hsym : "]d".toList.isPrefixOf sym = true)
    (hdup : from_data text = Except.error PyErr.assertError) :
    (csvStep api now st (Event.scan sym text)).2.2 = some PyErr.assertError ∧
    (csvStep api now st (Event.scan sym text)).1.curr = some (baseRec now sym text) ∧
    (csvStep api now st (Event.scan sym text)).1.written = st.written := by
  have hwl := write_line_idle hopen
  have hsym2 : [']', 'd'] <+: sym := by
    have h2 := List.isPrefixOf_iff_prefix.1 hsym
    simpa using h2
  show (scanStep api now st sym text).2.2 = _ ∧ (scanStep api now st sym text).1.curr = _ ∧
    (scanStep api now st sym text).1.written = _
  unfold scanStep
  rw [hwl]
  simp [hsym2, hdup]

/-- C3 (witness): the amended theorem applied to the duplicate-identifier
payload in the Idle state. -/
theorem c3_amended_dup_identifier_fatal_witness :
    (csvStep okApi "T".toList idleSt (Event.scan "]d1".toList tPayloadDup)).2.2 =
      some PyErr.assertError ∧
    (csvStep okApi "T".toList idleSt (Event.scan "]d1".toList tPayloadDup)).1.curr =
      some (baseRec "T".toList "]d1".toList tPayloadDup) ∧
    (csvStep okApi "T".toList idleSt (Event.scan "]d1".toList tPayloadDup)).1.written = [] :=
  c3_amended_dup_identifier_fatal okApi "T".toList idleSt "]d1".toList tPayloadDup
    rfl (by decide) rfl

/-- C4 (counterexample): the payload built from the two grammar-well-formed
segments `1PA` and `1PB` is well-formed under the declared grammar, yet the
decoder raises (`AssertionError` on the repeated identifier) instead of
returning a decoded message. -/
theorem c4_counterexample_wellformed_input_raises :
    SegWf ['1', 'P', 'A'] ∧ SegWf ['1', 'P', 'B'] ∧
    buildPayload [['1', 'P', 'A'], ['1', 'P', 'B']] false = tPayloadDup ∧
    from_data (buildPayload [['1', 'P', 'A'], ['1', 'P', 'B']] false) =
      Except.error PyErr.assertError :=
  ⟨⟨['1'], 'P', ['A'], rfl, by decide, by decide⟩,
   ⟨['1'], 'P', ['B'], rfl, by decide, by decide⟩,
   by decide, rfl⟩

/-- C4 (amended): the decoder is total and deterministic over the declared
grammar provided the segments carry pairwise distinct identifiers, contain
no separator control characters (as the grammar's delimitation implies),
and consist of ASCII characters: it returns a decoded message without
raising; and equal inputs give equal results.  The ASCII bound is the
domain on which the model's `isnumeric` is exact; outside it the code
diverges from the grammar — a non-ASCII numeric type character such as `½`
is a non-digit to the grammar but numeric to CPython, so on the payload
`[)>␞06␝½` the real decoder consumes `½` into the identifier and raises
`IndexError`.  The hypothesis is a scope restriction on the claim, not an
ingredient of the model-level proof. -/
theorem c4_amended_decode_total_deterministic (segs : List (List Char)) (wt : Bool)
    (hne : segs ≠ [])
    (hwf : ∀ seg ∈ segs, SegWf seg)
    (hGS : ∀ seg ∈ segs, kGroupSeparatorChar ∉ seg)
    (hRS : ∀ seg ∈ segs, kRecordSeparatorChar ∉ seg)
    (hascii : ∀ seg ∈ segs, ∀ c ∈ seg, c.toNat < 128)
    (hdist : segs.Pairwise (fun a b => identOf a ≠ identOf b)) :
    (∃ m, from_data (buildPayload segs wt) = Except.ok (some m)) ∧
    (∀ s t : List Char, s = t → from_data s = from_data t) := by
  constructor
  · obtain ⟨elems, helems⟩ :=
      decodeElements_total segs [] hwf (fun _ _ => rfl) hdist
    exact ⟨⟨elems⟩, by rw [from_data_buildPayload segs wt hne hGS hRS, helems]⟩
  · intro s t h
    rw [h]

/-- C4 (witness): the amended theorem applied to the two-segment ASCII
payload `1PXAF4444␝Q3` with trailer, which decodes to `mGood`. -/
theorem c4_amended_decode_total_deterministic_witness :
    from_data (buildPayload ["1PXAF4444".toList, "Q3".toList] true) =
      Except.ok (some mGood) := by
  obtain ⟨m, hm⟩ := (c4_amended_decode_total_deterministic
    ["1PXAF4444".toList, "Q3".toList] true (by simp)
    (fun seg hseg => by
      rcases List.mem_cons.1 hseg with h | h
      · exact ⟨['1'], 'P', "XAF4444".toList, by rw [h]; rfl, by decide, by decide⟩
      · have h2 : seg = "Q3".toList := by simpa using h
        exact ⟨[], 'Q', ['3'], by rw [h2]; rfl, by decide, by decide⟩)
    (by decide) (by decide) (by decide) (by decide)).1
  have h2 : Except.ok (some m) =
      (Except.ok (some mGood) : Except PyErr (Option Iso15434)) := by
    rw [← hm]
    rfl
  rw [hm]
  exact h2

/-- C7 (counterexample): two sightings of the same text exactly 4 seconds
apart (prior sighting at t=10 µs, second at t=10 µs + 4 s) are classified
"repeat" by the code, where the claim requires "new" for gaps of 4 seconds
or more: the comparison is `elapsed > threshold`, not `≥`. -/
theorem c7_counterexample_boundary_repeat :
    (dedupStep ⟨[("A".toList, 10)]⟩ "A".toList (10 + kBarcodeTimeoutThreshold)).1 =
      ScanClass.repeatScan := by decide

/-- C7 (amended): a second sighting of identical text at most 4 seconds
after the previous one is "repeat"; strictly more than 4 seconds after it,
"new"; a first sighting is "new" provided its timestamp exceeds the
1990-01-01 default by more than the threshold; and every sighting updates
the last-seen time regardless of classification. -/
theorem c7_amended_dedup (st : ScanDedupState) (text : List Char) (t last : Int) :
    (aget st.last_seen_times text = some last → t - last ≤ kBarcodeTimeoutThreshold →
      (dedupStep st text t).1 = ScanClass.repeatScan) ∧
    (aget st.last_seen_times text = some last → kBarcodeTimeoutThreshold < t - last →
      (dedupStep st text t).1 = ScanClass.newScan) ∧
    (aget st.last_seen_times text = none → kBarcodeTimeoutThreshold < t - kDefaultLastSeen →
      (dedupStep st text t).1 = ScanClass.newScan) ∧
    aget (dedupStep st text t).2.last_seen_times text = some t := by
  refine ⟨?_, ?_, ?_, ?_⟩
  · intro hl hle
    simp [dedupStep, hl, not_lt.2 hle]
  · intro hl hgt
    simp [dedupStep, hl, hgt]
  · intro hl hgt
    simp [dedupStep, hl, hgt]
  · exact aget_ainsert_self st.last_seen_times text t

/-- C7 (witness): the amended theorem applied to a sighting 3 µs after the
prior one, and to a fresh text far from the epoch. -/
theorem c7_amended_dedup_witness :
    (dedupStep ⟨[("A".toList, 10)]⟩ "A".toList 13).1 = ScanClass.repeatScan ∧
    (dedupStep ⟨[("A".toList, 10)]⟩ "B".toList 99999999).1 = ScanClass.newScan ∧
    aget (dedupStep ⟨[("A".toList, 10)]⟩ "A".toList 13).2.last_seen_times "A".toList =
      some 13 :=
  ⟨(c7_amended_dedup ⟨[("A".toList, 10)]⟩ "A".toList 13 10).1 (by decide) (by decide),
   (c7_amended_dedup ⟨[("A".toList, 10)]⟩ "B".toList 99999999 0).2.2.1 (by decide) (by decide),
   (c7_amended_dedup ⟨[("A".toList, 10)]⟩ "A".toList 13 10).2.2.2⟩

theorem qty_guard_shape {data : List Char}
    (h : (startsWithChar data '+' || startsWithChar data '-' || decide (data = ['0'])) = true) :
    ∃ c rest, data = c :: rest ∧ (c = '+' ∨ c = '-' ∨ c = '0') := by
  rcases data with _ | ⟨c, rest⟩
  · simp [startsWithChar] at h
  · refine ⟨c, rest, rfl, ?_⟩
    simp only [startsWithChar, Bool.or_eq_true, decide_eq_true_eq] at h
    rcases h with (h | h) | h
    · exact Or.inl h
    · exact Or.inr (Or.inl h)
    · injection h with h1 h2
      exact Or.inr (Or.inr h1)

/-- C1: while a record is open, a quantity-delta token `+N`, `-N` or `0`
sets the current quantity to the prior current quantity plus the signed
delta, where the prior value falls back to the pack quantity when no
current quantity exists; no exception escapes, and nothing else changes. -/
theorem c1_quantity_delta_applied (api : DigiKeyApi) (now : List Char) (st : CsvState)
    (d : Rec) (data packv prior : List Char) (priorq delta : Int)
    (hopen : st.curr = some d)
    (hcond : (startsWithChar data '+' || startsWithChar data '-' || decide (data = ['0'])) = true)
    (hdelta : pyInt (if startsWithChar data '+' then data.drop 1 else data) = some delta)
    (hpack : aget d kCsvColPackQty = some packv)
    (hprior : (aget d kCsvColCurrQty).getD packv = prior)
    (hpq : pyInt prior = some priorq) :
    csvStep api now st (Event.line data) =
      ({ st with curr := some (ainsert d kCsvColCurrQty (intToChars (priorq + delta))) },
       [Msg.updatedQuantity (priorq + delta)], none) := by
  obtain ⟨c, rest, rfl, hc⟩ := qty_guard_shape hcond
  have hnotd : startsWithChar (c :: rest) 'd' = false := by
    rcases hc with rfl | rfl | rfl <;> rfl
  show lineStep api st (c :: rest) = _
  unfold lineStep
  rw [hnotd, hcond]
  simp only [List.isEmpty_cons, Bool.false_and, Bool.and_false, if_false, ite_true,
    Bool.false_eq_true, ite_false]
  unfold qtyBranch
  simp only [hdelta, hopen, pyGetItem, hpack, hprior, hpq]

/-- C1 (witness): pack quantity 100, token `-20`, no current quantity:
yields current quantity 80. -/
theorem c1_quantity_delta_applied_witness :
    csvStep failApi "T".toList (openRecSt packRec) (Event.line "-20".toList) =
      ({ openRecSt packRec with
          curr := some (ainsert packRec kCsvColCurrQty "80".toList) },
       [Msg.updatedQuantity 80], none) := by
  have h := c1_quantity_delta_applied failApi "T".toList (openRecSt packRec) packRec
    "-20".toList "100".toList "100".toList 100 (-20) rfl (by decide) (by decide)
    (by decide) (by decide) (by decide)
  simpa using h

/-- C5: behaviour of each command token arriving in the Idle state.  The
quantity branch of `csv_fn` is the only one whose guard omits the
`curr_dict is not None` test: a parseable quantity token in Idle reaches
`curr_dict.get` on `None` and raises an uncaught `AttributeError`
(halting the event loop), while every other token in Idle is recovered
with a warning and no state change, as the spec describes. -/
theorem c5_idle_command_handling :
    csvStep failApi "T".toList idleSt (Event.line "+5".toList) =
      (idleSt, [], some PyErr.attributeError) ∧
    csvStep failApi "T".toList idleSt (Event.line "-3".toList) =
      (idleSt, [], some PyErr.attributeError) ∧
    csvStep failApi "T".toList idleSt (Event.line "0".toList) =
      (idleSt, [], some PyErr.attributeError) ∧
    csvStep failApi "T".toList idleSt (Event.line "d".toList) =
      (idleSt, [Msg.warnUnknownCommand], none) ∧
    csvStep failApi "T".toList idleSt (Event.line "p123".toList) =
      (idleSt, [Msg.warnUnknownCommand], none) ∧
    csvStep failApi "T".toList idleSt (Event.line []) =
      (idleSt, [Msg.warnUnknownCommand], none) ∧
    csvStep failApi "T".toList idleSt (Event.line "+x".toList) =
      (idleSt, [Msg.warnUnknownQuantityModifier], none) := by
  refine ⟨?_, ?_, ?_, ?_, ?_, ?_, ?_⟩ <;> decide

/-- No branch of the scan handler writes a row after `write_line`: the rows
written by a scan event are exactly those written by the initial commit. -/
theorem scanStep_written (api : DigiKeyApi) (now : List Char) (st : CsvState)
    (sym text : List Char) :
    (scanStep api now st sym text).1.written = (write_line st).1.written := by
  unfold scanStep
  generalize hw : write_line st = wl
  obtain ⟨st1, e1⟩ := wl
  cases e1 with
  | some e => rfl
  | none =>
    dsimp only
    repeat' split <;> try rfl

/-- C6: at most one record is ever open (the `curr` slot is an `Option`);
a scan event arriving while a record is open appends exactly one row for
the prior record before the fresh record is seeded, and a delete command
discards the open record with zero rows written. -/
theorem c6_commit_on_new_scan_delete_writes_nothing (api : DigiKeyApi) (now : List Char)
    (st : CsvState) (d : Rec) (key : List Char) (sym text del : List Char)
    (hopen : st.curr = some d)
    (hkey : aget d kCsvColBarcode = some key)
    (hdel : startsWithChar del 'd' = true) :
    (csvStep api now st (Event.scan sym text)).1.written = st.written ++ [d] ∧
    (csvStep api now st (Event.line del)).1.written = st.written ∧
    (csvStep api now st (Event.line del)).1.curr = none ∧
    (csvStep api now st (Event.line del)).2.2 = none := by
  have hscan : (csvStep api now st (Event.scan sym text)).1.written = st.written ++ [d] := by
    have h := scanStep_written api now st sym text
    rw [write_line_open hopen hkey] at h
    exact h
  have hne : del.isEmpty = false := by
    cases del with
    | nil => simp [startsWithChar] at hdel
    | cons c rest => rfl
  have hline : csvStep api now st (Event.line del) =
      ({ st with curr := none }, [Msg.lineDeleted], none) := by
    show lineStep api st del = _
    unfold lineStep
    rw [hne, hdel, hopen]
    simp
  refine ⟨hscan, ?_, ?_, ?_⟩ <;> rw [hline]

/-- C6 (witness): with the record `packRec` open, a linear-symbology scan
appends exactly that row, and a delete command writes nothing. -/
theorem c6_commit_on_new_scan_delete_writes_nothing_witness :
    (csvStep failApi "T".toList (openRecSt packRec)
      (Event.scan "]C0".toList "RAW".toList)).1.written = [packRec] ∧
    (csvStep failApi "T".toList (openRecSt packRec) (Event.line "d".toList)).1.written = [] ∧
    (csvStep failApi "T".toList (openRecSt packRec) (Event.line "d".toList)).1.curr = none ∧
    (csvStep failApi "T".toList (openRecSt packRec) (Event.line "d".toList)).2.2 = none := by
  have h := c6_commit_on_new_scan_delete_writes_nothing failApi "T".toList (openRecSt packRec)
    packRec "KEY1".toList "]C0".toList "RAW".toList "d".toList rfl (by decide) (by decide)
  simpa using h

/-- With both lookup calls failing by `AssertionError`, `process_iso15434`
returns without raising, populates only the two decode-derived fields, and
surfaces the product-lookup warning. -/
theorem process_iso15434_lookups_fail (api : DigiKeyApi) (raw : List Char) (m : Iso15434)
    (d : Rec) (r1 rq : Iso15434Record)
    (hfb2 : ∀ s, api.barcode2d s = Except.error PyErr.assertError)
    (hfpd : ∀ s, api.product_details s = Except.error PyErr.assertError)
    (h1p : aget m.data (FieldKey.fieldKey FieldSupplierPartNumber) = some r1)
    (hq : aget m.data (FieldKey.fieldKey FieldQuantity) = some rq) :
    (process_iso15434 api raw m d).1 =
      ainsert (ainsert d kCsvColSupplierPart r1.raw) kCsvColPackQty rq.raw ∧
    (process_iso15434 api raw m d).2.2 = none ∧
    Msg.warnProductLookupFailed ∈ (process_iso15434 api raw m d).2.1 := by
  have hne : kCsvColSupplierPart ≠ kCsvColPackQty := by decide
  have hsup : aget (ainsert (ainsert d kCsvColSupplierPart r1.raw) kCsvColPackQty rq.raw)
      kCsvColSupplierPart = some r1.raw := by
    rw [aget_ainsert_ne _ _ _ _ hne, aget_ainsert_self]
  unfold process_iso15434
  simp only [h1p, hq]
  cases h20 : m.data.any (fun kv => decide (kv.1 = FieldKey.strKey "20Z".toList)) with
  | true => simp [h20, hfb2, hfpd, pyGetItem, hsup]
  | false => simp [h20, hfb2, hfpd, pyGetItem, hsup]

/-- C2: when the external lookup calls fail (the collaborator's failure
mode, `AssertionError`), the failure is caught at each call site: the
2D-matrix path returns with only the decode-derived fields added and every
previously populated field intact, surfacing a warning; the scan event
completes with no exception escaping the loop; and the linear-barcode path
leaves the freshly seeded record entirely unchanged. -/
theorem c2_lookup_failure_caught (api : DigiKeyApi) (now : List Char) (st : CsvState)
    (sym text : List Char) (m : Iso15434) (d : Rec) (r1 rq : Iso15434Record)
    (hfb2 : ∀ s, api.barcode2d s = Except.error PyErr.assertError)
    (hfb1 : ∀ s, api.barcode s = Except.error PyErr.assertError)
    (hfpd : ∀ s, api.product_details s = Except.error PyErr.assertError)
    (h1p : aget m.data (FieldKey.fieldKey FieldSupplierPartNumber) = some r1)
    (hq : aget m.data (FieldKey.fieldKey FieldQuantity) = some rq)
    (hopen : st.curr = none)
    (hdec : from_data text = Except.ok (some m))
    (hsym : "]d".toList.isPrefixOf sym = true) :
    (process_iso15434 api text m d).2.2 = none ∧
    (process_iso15434 api text m d).1 =
      ainsert (ainsert d kCsvColSupplierPart r1.raw) kCsvColPackQty rq.raw ∧
    Msg.warnProductLookupFailed ∈ (process_iso15434 api text m d).2.1 ∧
    (∀ k, k ≠ kCsvColSupplierPart → k ≠ kCsvColPackQty →
      aget (process_iso15434 api text m d).1 k = aget d k) ∧
    (csvStep api now st (Event.scan sym text)).2.2 = none ∧
    (csvStep api now st (Event.scan sym text)).1.curr =
      some (ainsert (ainsert (baseRec now sym text) kCsvColSupplierPart r1.raw)
        kCsvColPackQty rq.raw) ∧
    (csvStep api now st (Event.scan "]C0".toList text)).2.2 = none ∧
    (csvStep api now st (Event.scan "]C0".toList text)).1.curr =
      some (baseRec now "]C0".toList text) := by
  obtain ⟨hd1, he1, hm1⟩ :=
    process_iso15434_lookups_fail api text m d r1 rq hfb2 hfpd h1p hq
  obtain ⟨hdb, heb, hmb⟩ :=
    process_iso15434_lookups_fail api text m (baseRec now sym text) r1 rq hfb2 hfpd h1p hq
  have hwl := write_line_idle hopen
  have hsym2 : "]d".toList <+: sym := List.isPrefixOf_iff_prefix.1 hsym
  refine ⟨he1, hd1, hm1, ?_, ?_, ?_, ?_, ?_⟩
  · intro k hk1 hk2
    rw [hd1, aget_ainsert_ne _ _ _ _ hk2, aget_ainsert_ne _ _ _ _ hk1]
  · show (scanStep api now st sym text).2.2 = none
    unfold scanStep
    rw [hwl]
    dsimp only
    rw [if_pos (by rwa [List.isPrefixOf_iff_prefix] : "]d".toList.isPrefixOf sym = true), hdec]
    exact heb
  · show (scanStep api now st sym text).1.curr = _
    unfold scanStep
    rw [hwl]
    dsimp only
    rw [if_pos (by rwa [List.isPrefixOf_iff_prefix] : "]d".toList.isPrefixOf sym = true), hdec]
    exact congrArg some hdb
  · show (scanStep api now st "]C0".toList text).2.2 = none
    unfold scanStep
    rw [hwl]
    dsimp only
    rw [if_neg (by decide), if_pos (by decide), hfb1 text]
  · show (scanStep api now st "]C0".toList text).1.curr = _
    unfold scanStep
    rw [hwl]
    dsimp only
    rw [if_neg (by decide), if_pos (by decide), hfb1 text]

/-- C2 (witness): the theorem applied in the Idle state to the payload
`1PXAF4444␝Q3` with the always-failing collaborator. -/
theorem c2_lookup_failure_caught_witness :
    (csvStep failApi "T".toList idleSt (Event.scan "]d1".toList tPayloadGood)).2.2 = none ∧
    (csvStep failApi "T".toList idleSt (Event.scan "]d1".toList tPayloadGood)).1.curr =
      some (ainsert (ainsert (baseRec "T".toList "]d1".toList tPayloadGood)
        kCsvColSupplierPart "XAF4444".toList) kCsvColPackQty "3".toList) ∧
    (csvStep failApi "T".toList idleSt (Event.scan "]C0".toList tPayloadGood)).2.2 = none ∧
    (csvStep failApi "T".toList idleSt (Event.scan "]C0".toList tPayloadGood)).1.curr =
      some (baseRec "T".toList "]C0".toList tPayloadGood) := by
  have h := c2_lookup_failure_caught failApi "T".toList idleSt "]d1".toList tPayloadGood
    mGood [] ⟨"1P".toList, "XAF4444".toList⟩ ⟨"Q".toList, "3".toList⟩
    (fun _ => rfl) (fun _ => rfl) (fun _ => rfl) (by decide) (by decide) rfl rfl (by decide)
  exact ⟨h.2.2.2.2.1, h.2.2.2.2.2.1, h.2.2.2.2.2.2.1, h.2.2.2.2.2.2.2⟩

/-- When the decoded message lacks the supplier-part-number or quantity
field, `process_iso15434` raises `KeyError` (the `decoded.data[...]`
subscript), caught nowhere. -/
theorem process_iso15434_missing_field (api : DigiKeyApi) (raw : List Char) (m : Iso15434)
    (d : Rec)
    (hmiss : aget m.data (FieldKey.fieldKey FieldSupplierPartNumber) = none ∨
             aget m.data (FieldKey.fieldKey FieldQuantity) = none) :
    (process_iso15434 api raw m d).2.2 = some PyErr.keyError := by
  unfold process_iso15434
  rcases hmiss with h | h
  · simp [h]
  · cases h1 : aget m.data (FieldKey.fieldKey FieldSupplierPartNumber) with
    | none => simp [h1]
    | some r1 => simp [h1, h]

/-- C9: a 2D-matrix scan whose payload decodes but lacks the `1P`
supplier-part field or the `Q` quantity field raises an uncaught `KeyError`
out of the record-assembly step — the exception escapes the event loop
rather than being recovered into a minimally populated record. -/
theorem c9_missing_field_raises_keyerror (api : DigiKeyApi) (now : List Char) (st : CsvState)
    (sym text : List Char) (m : Iso15434)
    (hopen : st.curr = none)
    (hsym : "]d".toList.isPrefixOf sym = true)
    (hdec : from_data text = Except.ok (some m))
    (hmiss : aget m.data (FieldKey.fieldKey FieldSupplierPartNumber) = none ∨
             aget m.data (FieldKey.fieldKey FieldQuantity) = none) :
    (process_iso15434 api text m (baseRec now sym text)).2.2 = some PyErr.keyError ∧
    (csvStep api now st (Event.scan sym text)).2.2 = some PyErr.keyError := by
  have hp := process_iso15434_missing_field api text m (baseRec now sym text) hmiss
  have hwl := write_line_idle hopen
  have hsym2 : "]d".toList <+: sym := List.isPrefixOf_iff_prefix.1 hsym
  refine ⟨hp, ?_⟩
  show (scanStep api now st sym text).2.2 = some PyErr.keyError
  unfold scanStep
  rw [hwl]
  dsimp only
  rw [if_pos (by rwa [List.isPrefixOf_iff_prefix] : "]d".toList.isPrefixOf sym = true), hdec]
  exact hp

/-- C9 (witness): the theorem applied to the payload `K123`, which decodes
to a message containing only the customer-PO field. -/
theorem c9_missing_field_raises_keyerror_witness :
    (process_iso15434 failApi tPayloadNoPart mNoPart
      (baseRec "T".toList "]d1".toList tPayloadNoPart)).2.2 = some PyErr.keyError ∧
    (csvStep failApi "T".toList idleSt (Event.scan "]d1".toList tPayloadNoPart)).2.2 =
      some PyErr.keyError :=
  c9_missing_field_raises_keyerror failApi "T".toList idleSt "]d1".toList tPayloadNoPart
    mNoPart rfl (by decide) rfl (Or.inl (by decide))

/-- C8 (counterexample): after a successful manual product-override
(`p` + part number) on a record whose pack quantity is `100`, the
pack-quantity field still holds its prior value `100` — the branch writes
only the raw response, description and category, so pack-quantity is not
overwritten with anything from the re-run lookup. -/
theorem c8_counterexample_pack_qty_not_overwritten :
    okApi.product_details "PN1".toList = Except.ok okProduct ∧
    aget ((csvStep okApi "T".toList (openRecSt overrideRec)
        (Event.line ('p' :: "PN1".toList))).1.curr.getD [])
      kCsvColPackQty = some "100".toList := by
  refine ⟨rfl, ?_⟩
  decide

/-- C8 (amended): a successful manual product-override overwrites the raw
product response, the description and the category in place, and leaves
every other field — in particular current quantity, pack quantity and the
barcode key — unchanged; no exception escapes. -/
theorem c8_amended_override_frame (api : DigiKeyApi) (now : List Char) (st : CsvState)
    (d : Rec) (pn : List Char) (p : ProductDetails)
    (hopen : st.curr = some d)
    (hlookup : api.product_details pn = Except.ok p) :
    csvStep api now st (Event.line ('p' :: pn)) =
      ({ st with curr := some (ainsert (ainsert (ainsert d kCsvColDistProdData p.dumpJson)
          kCsvColDesc p.ProductDescription) kCsvColCategory p.CategorySimpleStr) },
       [Msg.productInfo], none) ∧
    (∀ k, k ≠ kCsvColDistProdData → k ≠ kCsvColDesc → k ≠ kCsvColCategory →
      aget (ainsert (ainsert (ainsert d kCsvColDistProdData p.dumpJson)
        kCsvColDesc p.ProductDescription) kCsvColCategory p.CategorySimpleStr) k = aget d k) := by
  constructor
  · have h0 : decide (('p' :: pn : List Char) = ['0']) = false := by simp
    show lineStep api st ('p' :: pn) = _
    unfold lineStep
    rw [hopen, h0]
    simp only [List.isEmpty_cons, Bool.false_and, if_false, startsWithChar,
      Option.isSome_some, Bool.and_true, Bool.or_false, Bool.false_eq_true, ite_false,
      decide_eq_true_eq]
    have hpd : (('p' : Char) = 'd') = False := by simp
    have hpp : (('p' : Char) = '+') = False := by simp
    have hpm : (('p' : Char) = '-') = False := by simp
    have hppp : (('p' : Char) = 'p') = True := by simp
    simp only [hpd, hpp, hpm, hppp, decide_True, decide_False, Bool.false_or,
      Bool.or_self, if_false, if_true, ite_true, ite_false, Bool.false_eq_true]
    show (match api.product_details pn with
      | Except.ok p =>
        ({ st with curr := some (ainsert (ainsert (ainsert d kCsvColDistProdData p.dumpJson)
            kCsvColDesc p.ProductDescription) kCsvColCategory p.CategorySimpleStr) },
         [Msg.productInfo], none)
      | Except.error PyErr.assertError => (st, [Msg.warnProductLookupFailed], none)
      | Except.error e => (st, [], some e)) = _
    rw [hlookup]
  · intro k hk1 hk2 hk3
    rw [aget_ainsert_ne _ _ _ _ hk3, aget_ainsert_ne _ _ _ _ hk2,
      aget_ainsert_ne _ _ _ _ hk1]

/-- C8 (witness): the amended theorem applied to `overrideRec` (pack
quantity 100, current quantity 40) with a successful lookup: the three
product fields are rewritten, quantity fields and key are untouched. -/
theorem c8_amended_override_frame_witness :
    csvStep okApi "T".toList (openRecSt overrideRec) (Event.line ('p' :: "PN1".toList)) =
      ({ openRecSt overrideRec with
          curr := some (ainsert (ainsert (ainsert overrideRec kCsvColDistProdData
            okProduct.dumpJson) kCsvColDesc okProduct.ProductDescription)
            kCsvColCategory okProduct.CategorySimpleStr) },
       [Msg.productInfo], none) ∧
    aget (ainsert (ainsert (ainsert overrideRec kCsvColDistProdData okProduct.dumpJson)
      kCsvColDesc okProduct.ProductDescription) kCsvColCategory okProduct.CategorySimpleStr)
      kCsvColPackQty = some "100".toList ∧
    aget (ainsert (ainsert (ainsert overrideRec kCsvColDistProdData okProduct.dumpJson)
      kCsvColDesc okProduct.ProductDescription) kCsvColCategory okProduct.CategorySimpleStr)
      kCsvColCurrQty = some "40".toList ∧
    aget (ainsert (ainsert (ainsert overrideRec kCsvColDistProdData okProduct.dumpJson)
      kCsvColDesc okProduct.ProductDescription) kCsvColCategory okProduct.CategorySimpleStr)
      kCsvColBarcode = some "KEY1".toList := by
  have h := c8_amended_override_frame okApi "T".toList (openRecSt overrideRec) overrideRec
    "PN1".toList okProduct rfl rfl
  refine ⟨h.1, ?_, ?_, ?_⟩
  · rw [h.2 kCsvColPackQty (by decide) (by decide) (by decide)]
    decide
  · rw [h.2 kCsvColCurrQty (by decide) (by decide) (by decide)]
    decide
  · rw [h.2 kCsvColBarcode (by decide) (by decide) (by decide)]
    decide
